import Mathlib

/-!
Verification of the hummingbot varied-rate API throttler
(`hummingbot/core/api_throttler/varied_rate_api_throttler.py`) and the
Crypto.com order-book data source
(`hummingbot/connector/exchange/crypto_com/crypto_com_api_order_book_data_source.py`)
against their natural-language specification.

The Python code is embedded shallowly: pure computations become Lean
functions, exception-raising code returns `Except`, and the throttler's
evolving task log becomes an explicit transition relation on lists.
Machine integers do not occur (Python integers are unbounded), so `Nat`
and `Int` are used directly.
-/

namespace Hummingbot

/-! ## Throttler data model

`RateLimit` and `TaskLog` live in `hummingbot/core/api_throttler/data_types.py`,
which is not part of the sources under review; their fields are modelled from
the spec: a RateLimit is an endpoint identifier, integer limit, window length
(seconds) and weight; a TaskLogEntry is a timestamp, endpoint identifier and
weight. -/

/-- Modelled from the spec: RateLimit — endpoint identifier, integer limit,
window length (seconds) and weight (cost units per call).  The spec's data
invariant demands limit ≥ 1, window > 0, weight ≥ 1; times are modelled as
naturals. -/
structure RateLimit where
  path_url : String
  limit : Nat
  time_interval : Nat
  weight : Nat
  deriving DecidableEq, Repr

/-- Modelled from the spec: TaskLogEntry — timestamp, endpoint identifier and
weight, created the instant a request is admitted. -/
structure TaskLog where
  timestamp : Nat
  path_url : String
  weight : Nat
  deriving DecidableEq, Repr

/-- Embedding of `VariedRateRequestContext.within_capacity`
(varied_rate_api_throttler.py lines 49-54): the current capacity is the
configured limit minus the **number** of task-log entries whose `path_url`
equals the rate limit's `path_url`, and the check passes when that capacity
minus the rate limit's weight is still non-negative.  The subtraction is
over unbounded Python integers, hence `Int`. -/
def within_capacity (task_logs : List TaskLog) (rate_limit : RateLimit) : Bool :=
  let current_capacity : Int :=
    (rate_limit.limit : Int) -
      ((task_logs.filter (fun task => task.path_url == rate_limit.path_url)).length : Int)
  decide (current_capacity - (rate_limit.weight : Int) ≥ 0)

/-- Admission check written from the spec's words, for comparison with
`within_capacity`: current usage is the **sum of the weights** of the
task-log entries recorded for this endpoint, and the request is admitted
when `current_usage + weight ≤ limit`. -/
def spec_within_capacity (task_logs : List TaskLog) (rate_limit : RateLimit) : Bool :=
  let current_usage : Nat :=
    ((task_logs.filter (fun task => task.path_url == rate_limit.path_url)).map
      (fun task => task.weight)).sum
  decide (current_usage + rate_limit.weight ≤ rate_limit.limit)

/-- Sum of the weights of the task-log entries recorded for `path`. -/
def sumWeights (path : String) (task_logs : List TaskLog) : Nat :=
  ((task_logs.filter (fun task => task.path_url == path)).map
    (fun task => task.weight)).sum

/-- Number of task-log entries recorded for `path`. -/
def countEntries (path : String) (task_logs : List TaskLog) : Nat :=
  (task_logs.filter (fun task => task.path_url == path)).length

/-- The task-log states reachable by admissions on the single endpoint
`rate_limit`.  An admission (spec §4.1 step 3, `acquire` lives in the
absent `APIRequestContextBase`, so the loop shape is modelled from the
spec) appends one entry carrying the endpoint's path and weight, and is
possible exactly when the source's `within_capacity` check passes; pruning
(spec §3: entries are removed once they age out of the window) removes
some entries, modelled as passing to any sublist. -/
inductive Reachable (rate_limit : RateLimit) : List TaskLog → Prop
  | init : Reachable rate_limit []
  | admitStep (log : List TaskLog) (now : Nat) :
      Reachable rate_limit log →
      within_capacity log rate_limit = true →
      Reachable rate_limit
        (log ++ [⟨now, rate_limit.path_url, rate_limit.weight⟩])
  | prune (log log' : List TaskLog) :
      Reachable rate_limit log →
      List.Sublist log' log →
      Reachable rate_limit log'

/-- Rate limit used in the counterexamples: path `"x"`, limit 3,
window 1 s, weight 2. -/
def cexRateLimit : RateLimit := ⟨"x", 3, 1, 2⟩

/-- Task log reached by two back-to-back admissions on `cexRateLimit`. -/
def cexLog : List TaskLog := [⟨0, "x", 2⟩, ⟨0, "x", 2⟩]

theorem countEntries_append_self (path : String) (log : List TaskLog)
    (t : Nat) (w : Nat) :
    countEntries path (log ++ [⟨t, path, w⟩]) = countEntries path log + 1 := by
  simp [countEntries, List.filter_append]

theorem within_capacity_count (log : List TaskLog) (rl : RateLimit) :
    within_capacity log rl = true ↔
      countEntries rl.path_url log + rl.weight ≤ rl.limit := by
  simp only [within_capacity, countEntries, decide_eq_true_eq]
  omega

/-- C1: the claim that every reachable task log keeps the **sum of the
weights** of the endpoint's entries at or below the limit is false: with
limit 3 and weight 2, two back-to-back admissions both pass
`within_capacity`, leaving entries of total weight 4 > 3. -/
theorem c1_counterexample :
    Reachable cexRateLimit cexLog ∧
      ¬ sumWeights cexRateLimit.path_url cexLog ≤ cexRateLimit.limit := by
  refine ⟨?_, by decide⟩
  have h1 : Reachable cexRateLimit [(⟨0, "x", 2⟩ : TaskLog)] :=
    Reachable.admitStep [] 0 Reachable.init (by decide)
  exact Reachable.admitStep [⟨0, "x", 2⟩] 0 h1 (by decide)

/-- C1 (amended): for every sequence of admitted requests on one endpoint
whose weight is at least 1, at every observation point the **number** of
non-pruned task-log entries for that endpoint is at most the endpoint's
configured limit. -/
theorem c1_count_invariant (rl : RateLimit) (log : List TaskLog)
    (hw : 1 ≤ rl.weight) (h : Reachable rl log) :
    countEntries rl.path_url log ≤ rl.limit := by
  induction h with
  | init => simp [countEntries]
  | admitStep log now _ hcap ih =>
      have hc := (within_capacity_count log rl).mp hcap
      rw [countEntries_append_self]
      omega
  | prune log log' _ hsub ih =>
      have hlen : countEntries rl.path_url log' ≤ countEntries rl.path_url log :=
        List.Sublist.length_le (List.Sublist.filter _ hsub)
      omega

/-- Witness for C1 (amended): the invariant instantiated at `cexRateLimit`
(weight 2 ≥ 1) and the empty, trivially reachable log. -/
theorem c1_count_invariant_witness :
    countEntries cexRateLimit.path_url [] ≤ cexRateLimit.limit :=
  c1_count_invariant cexRateLimit [] (by decide) Reachable.init

/-- Task log used in the C2 counterexample: one entry of weight 5 on `"x"`. -/
def c2Log : List TaskLog := [⟨0, "x", 5⟩]

/-- Rate limit used in the C2 counterexample: limit 3, weight 1. -/
def c2RateLimit : RateLimit := ⟨"x", 3, 60, 1⟩

/-- C2: the claim that the admission check computes current usage as the
sum of the weights of the matching entries is false: with one logged entry
of weight 5 against limit 3, the source's `within_capacity` admits (it
counts one entry) while the spec's sum-of-weights formula denies. -/
theorem c2_counterexample :
    within_capacity c2Log c2RateLimit = true ∧
      spec_within_capacity c2Log c2RateLimit = false ∧
      ¬ sumWeights c2RateLimit.path_url c2Log + c2RateLimit.weight ≤
          c2RateLimit.limit := by
  decide

/-- C2 (amended): `within_capacity` computes current usage as the **number**
of task-log entries whose recorded endpoint equals the one being evaluated
(each entry counts once, regardless of its weight, and no window filtering
happens inside the check), and admits exactly when that count plus the
endpoint's weight is at most the endpoint's limit. -/
theorem c2_within_capacity_iff_count (log : List TaskLog) (rl : RateLimit) :
    within_capacity log rl = true ↔
      countEntries rl.path_url log + rl.weight ≤ rl.limit :=
  within_capacity_count log rl

/-! ## Throttler configuration lookup (`VariedRateThrottler.execute_task`) -/

/-- Errors surfaced by the throttler, per the spec's error taxonomy. -/
inductive ThrottlerError
  | configurationError
  deriving DecidableEq, Repr

/-- Modelled from the spec: the RateLimitRegistry table mapping endpoint
identifiers to their RateLimit (built by the absent `APIThrottlerBase`
from the configured rate-limit list); a lookup of an unconfigured endpoint
fails with `ConfigurationError`. -/
def path_rate_limit_map (rate_limit_list : List RateLimit) (path : String) :
    Option RateLimit :=
  rate_limit_list.find? (fun rl => rl.path_url == path)

/-- Embedding of `VariedRateThrottler.execute_task`
(varied_rate_api_throttler.py lines 22-31): look up the RateLimit for
`path_url` and build a request context holding that rate limit and the
(unchanged) shared task log; the lookup failure is the configuration
error of `path_rate_limit_map`. -/
def execute_task (rate_limit_list : List RateLimit) (task_logs : List TaskLog)
    (path_url : String) : Except ThrottlerError (RateLimit × List TaskLog) :=
  match path_rate_limit_map rate_limit_list path_url with
  | none => .error .configurationError
  | some rate_limit => .ok (rate_limit, task_logs)

/-- C3: requesting admission for an endpoint that has no configured
RateLimit fails with `ConfigurationError`; no context is produced, so no
request is admitted and no task-log entry is written. -/
theorem c3_missing_rate_limit_rejected (rate_limit_list : List RateLimit)
    (task_logs : List TaskLog) (path_url : String)
    (h : path_rate_limit_map rate_limit_list path_url = none) :
    execute_task rate_limit_list task_logs path_url =
      .error .configurationError := by
  simp [execute_task, h]

/-- Witness for C3: the empty configuration has no entry for the ticker
endpoint, and `execute_task` rejects it. -/
theorem c3_missing_rate_limit_rejected_witness :
    execute_task [] [] "public/get-ticker" =
      .error .configurationError :=
  c3_missing_rate_limit_rejected [] [] "public/get-ticker" rfl

/-! ## Cancellation behaviour (relay cleanup and throttler acquire)

The relay loops' `try`/`except`/`finally` shape is taken from
`listen_for_trades` (lines 133-163) and `listen_for_order_book_diffs`
(lines 169-210); the blocking `acquire` loop lives in the absent
`APIRequestContextBase` and is modelled from spec §4.1 steps 2-4. -/

/-- The awaits of one relay-loop iteration body, in source order. -/
inductive AwaitPoint
  | connect
  | subscribe
  | streamWait
  deriving DecidableEq, Repr

/-- Statements of the relay loop body: the synchronous construction of the
websocket session object, and the awaits that follow it. -/
inductive RelayStmt
  | constructWs
  | awaitAt (p : AwaitPoint)
  deriving DecidableEq, Repr

/-- The relay loop body in source order (lines 135-143 / 171-183):
`ws = CryptoComWebsocket()` runs before the first await, then
`await ws.connect()`, `await ws.subscribe(...)`, and the stream wait of
`async for response in ws.on_message()`. -/
def relayBodyStmts : List RelayStmt :=
  [.constructWs, .awaitAt .connect, .awaitAt .subscribe, .awaitAt .streamWait]

/-- The statements that have already executed when the body is suspended
at the await `p`. -/
def stmtsBeforeAwait (p : AwaitPoint) : List RelayStmt :=
  relayBodyStmts.takeWhile (fun s => s != RelayStmt.awaitAt p)

/-- Whether the websocket session object is already bound when the body is
suspended at the await `p` (so the `finally` clause's disconnect acts on a
constructed session, never on an unbound name). -/
def wsConstructedBefore (p : AwaitPoint) : Bool :=
  (stmtsBeforeAwait p).contains .constructWs

/-- How one relay-loop iteration can leave its `try` body: cancellation
delivered at an await, a non-cancellation failure at an await, or a
failure followed by cancellation delivered during the backoff sleep of
the `except Exception` handler. -/
inductive BodyOutcome
  | cancelledAt (p : AwaitPoint)
  | failedAt (p : AwaitPoint)
  | failedThenCancelledInBackoff (p : AwaitPoint)
  deriving DecidableEq, Repr

/-- What the relay's exception handling does on one body outcome. -/
structure RelayExit where
  propagatesCancellation : Bool
  errorLogged : Bool
  disconnectAttempted : Bool
  deriving DecidableEq, Repr

/-- Embedding of the relay loops' handler structure (lines 157-163 and
199-210): `except asyncio.CancelledError: raise` re-raises cancellation
without logging; `except Exception` logs and sleeps a backoff, and a
cancellation delivered during that sleep propagates; the `finally`
clause always awaits `ws.disconnect()`. -/
def relay_iteration_exit (outcome : BodyOutcome) : RelayExit :=
  match outcome with
  | .cancelledAt _ => ⟨true, false, true⟩
  | .failedAt _ => ⟨false, true, true⟩
  | .failedThenCancelledInBackoff _ => ⟨true, true, true⟩

/-- Result of the throttler's blocking acquire loop. -/
inductive AcquireResult
  | admitted (log : List TaskLog)
  | cancelled (log : List TaskLog)
  | fuelOut (log : List TaskLog)
  deriving DecidableEq, Repr

/-- Modelled from the spec: `acquire` (spec §4.1, the loop itself lives in
the absent `APIRequestContextBase`): re-evaluate the source's
`within_capacity`; on success append a TaskLogEntry and return, otherwise
suspend for the retry interval and repeat.  `cancelAfter = some k` means a
cancellation is delivered at the k-th retry suspension; `fuel` bounds the
number of evaluations so the model stays total. -/
def acquire_loop (rl : RateLimit) (log : List TaskLog) (now : Nat)
    (cancelAfter : Option Nat) : Nat → AcquireResult
  | 0 => .fuelOut log
  | fuel + 1 =>
    if within_capacity log rl then
      .admitted (log ++ [⟨now, rl.path_url, rl.weight⟩])
    else
      match cancelAfter with
      | some 0 => .cancelled log
      | some (k + 1) => acquire_loop rl log now (some k) fuel
      | none => acquire_loop rl log now none fuel

/-- C4: a cancellation delivered while suspended in the throttler's
acquire loop leaves the task log exactly as it was (no TaskLogEntry is
written); a cancellation delivered at a relay await or during a relay
backoff sleep propagates out of the iteration; and at every await of the
relay body the websocket session object was already constructed, so the
cleanup's disconnect never acts on a session that was never created. -/
theorem c4_cancellation_clean :
    (∀ (rl : RateLimit) (log : List TaskLog) (now : Nat)
        (cancelAfter : Option Nat) (fuel : Nat) (log' : List TaskLog),
        acquire_loop rl log now cancelAfter fuel = .cancelled log' →
          log' = log)
    ∧ (∀ p : AwaitPoint,
        (relay_iteration_exit (.cancelledAt p)).propagatesCancellation = true
        ∧ (relay_iteration_exit
            (.failedThenCancelledInBackoff p)).propagatesCancellation = true)
    ∧ (∀ p : AwaitPoint, wsConstructedBefore p = true) := by
  refine ⟨?_, fun p => ⟨rfl, rfl⟩, fun p => by cases p <;> rfl⟩
  intro rl log now cancelAfter fuel
  induction fuel generalizing cancelAfter with
  | zero => intro log' h; simp [acquire_loop] at h
  | succ n ih =>
      intro log' h
      by_cases hc : within_capacity log rl
      · simp [acquire_loop, hc] at h
      · simp only [acquire_loop, if_neg hc] at h
        cases cancelAfter with
        | none => exact ih none log' h
        | some k =>
            cases k with
            | zero => exact (AcquireResult.cancelled.inj h).symm
            | succ k => exact ih (some k) log' h

/-- Witness for C4: with limit 0 the first evaluation denies, the
cancellation scheduled at the first retry suspension fires, and the log
comes back unchanged. -/
theorem c4_cancellation_clean_witness :
    acquire_loop ⟨"x", 0, 1, 1⟩ [] 0 (some 0) 1 = .cancelled []
    ∧ ([] : List TaskLog) = [] :=
  ⟨by decide, c4_cancellation_clean.1 ⟨"x", 0, 1, 1⟩ [] 0 (some 0) 1 []
    (by decide)⟩

/-! ## Crypto.com order-book data source

Embedding of `crypto_com_api_order_book_data_source.py`.  The helper
module `crypto_com_utils` and the message constructors of
`CryptoComOrderBook` are absent from the sources; they are modelled from
the spec where named. -/

/-- Modelled from the spec: `crypto_com_utils.ms_timestamp_to_s` (module
absent from the sources) — the feed's millisecond timestamp becomes
seconds. -/
def ms_timestamp_to_s (ms : Nat) : Nat := ms / 1000

/-- Modelled from the spec:
`crypto_com_utils.convert_from_exchange_trading_pair` (module absent) —
the exchange symbol's underscores become dashes (`BTC_USDT ↦ BTC-USDT`). -/
def convert_from_exchange_trading_pair (symbol : String) : String :=
  String.mk (symbol.data.map (fun c => if c = '_' then '-' else c))

/-- Modelled from the spec:
`crypto_com_utils.convert_to_exchange_trading_pair` (module absent) — the
trading pair's dashes become underscores. -/
def convert_to_exchange_trading_pair (pair : String) : String :=
  String.mk (pair.data.map (fun c => if c = '-' then '_' else c))

/-- One decoded order-book payload; only its millisecond timestamp field
`t` matters to the claims, the price levels ride along opaquely. -/
structure BookPayload where
  t : Nat
  deriving DecidableEq, Repr

/-- One decoded trade payload: millisecond timestamp `t` and exchange
instrument name `i`. -/
structure TradePayload where
  t : Nat
  i : String
  deriving DecidableEq, Repr

/-- A published snapshot message: trading pair, timestamp in seconds, and
the payload it was built from. -/
structure SnapshotMsg where
  trading_pair : String
  timestamp : Nat
  payload : BookPayload
  deriving DecidableEq, Repr

/-- A published trade message: trading pair, timestamp in seconds, and
the payload it was built from. -/
structure TradeMsg where
  trading_pair : String
  timestamp : Nat
  payload : TradePayload
  deriving DecidableEq, Repr

/-- The `result` object of a streamed book-channel message. -/
structure WsBookResult where
  instrument_name : String
  data : List BookPayload
  deriving DecidableEq, Repr

/-- A streamed book-channel message, whose `result` field may be absent. -/
structure WsBookResponse where
  result : Option WsBookResult
  deriving DecidableEq, Repr

/-- The `result` object of a streamed trade-channel message. -/
structure WsTradeResult where
  data : List TradePayload
  deriving DecidableEq, Repr

/-- A streamed trade-channel message, whose `result` field may be absent. -/
structure WsTradeResponse where
  result : Option WsTradeResult
  deriving DecidableEq, Repr

/-- Embedding of the per-message body of `listen_for_order_book_diffs`
(lines 179-197): a response without `result` is skipped; otherwise
`response["result"]["data"][0]` (an `IndexError`, modelled as the
exceptional branch, when `data` is empty) is converted into one snapshot
message whose trading pair comes from `result.instrument_name` and whose
timestamp is the payload's millisecond timestamp in seconds. -/
def diff_relay_step (response : WsBookResponse) :
    Except Unit (List SnapshotMsg) :=
  match response.result with
  | none => .ok []
  | some result =>
    match result.data with
    | [] => .error ()
    | d :: _ =>
      .ok [⟨convert_from_exchange_trading_pair result.instrument_name,
            ms_timestamp_to_s d.t, d⟩]

/-- Embedding of the per-message body of `listen_for_trades`
(lines 143-155): a response without `result` is skipped; otherwise one
trade message is published for **every** element of `result.data`, each
with the trading pair taken from that trade's own `i` field. -/
def trade_relay_step (response : WsTradeResponse) :
    Except Unit (List TradeMsg) :=
  match response.result with
  | none => .ok []
  | some result =>
    .ok (result.data.map (fun trade =>
      ⟨convert_from_exchange_trading_pair trade.i,
       ms_timestamp_to_s trade.t, trade⟩))

/-- C7: a diff-relay payload carrying instrument name `BTC_USDT` and
millisecond timestamp 1 700 000 000 000 yields a published snapshot
message with trading pair `BTC-USDT` and timestamp 1 700 000 000 s. -/
theorem c7_diff_payload_mapping (response : WsBookResponse)
    (result : WsBookResult) (d : BookPayload) (rest : List BookPayload)
    (hres : response.result = some result)
    (hname : result.instrument_name = "BTC_USDT")
    (hdata : result.data = d :: rest)
    (ht : d.t = 1700000000000) :
    diff_relay_step response = .ok [⟨"BTC-USDT", 1700000000, d⟩] := by
  have hconv : convert_from_exchange_trading_pair "BTC_USDT" = "BTC-USDT" := by
    decide
  have hms : ms_timestamp_to_s 1700000000000 = 1700000000 := by decide
  simp [diff_relay_step, hres, hdata, hname, ht, hconv, hms]

/-- The concrete diff-relay payload of the C7 scenario. -/
def c7Response : WsBookResponse :=
  ⟨some ⟨"BTC_USDT", [⟨1700000000000⟩]⟩⟩

/-- Witness for C7: the mapping evaluated on the concrete payload. -/
theorem c7_diff_payload_mapping_witness :
    diff_relay_step c7Response =
      .ok [⟨"BTC-USDT", 1700000000, ⟨1700000000000⟩⟩] :=
  c7_diff_payload_mapping c7Response ⟨"BTC_USDT", [⟨1700000000000⟩]⟩
    ⟨1700000000000⟩ [] rfl rfl rfl rfl

/-- C9: when a diff-relay payload's `result` is present, exactly the first
element of `result.data` is converted and published — later elements of
the same payload never are — while the trade relay publishes one message
per element of `result.data`. -/
theorem c9_first_element_only (response : WsBookResponse)
    (result : WsBookResult) (d : BookPayload) (rest : List BookPayload)
    (hres : response.result = some result)
    (hdata : result.data = d :: rest) :
    diff_relay_step response =
      .ok [⟨convert_from_exchange_trading_pair result.instrument_name,
            ms_timestamp_to_s d.t, d⟩]
    ∧ ∀ (tresponse : WsTradeResponse) (tresult : WsTradeResult),
        tresponse.result = some tresult →
        trade_relay_step tresponse =
          .ok (tresult.data.map (fun trade =>
            ⟨convert_from_exchange_trading_pair trade.i,
             ms_timestamp_to_s trade.t, trade⟩)) := by
  refine ⟨by simp [diff_relay_step, hres, hdata], ?_⟩
  intro tresponse tresult htres
  simp [trade_relay_step, htres]

/-- A two-element diff-relay payload for the C9 witness. -/
def c9BookResponse : WsBookResponse :=
  ⟨some ⟨"BTC_USDT", [⟨1000⟩, ⟨2000⟩]⟩⟩

/-- A two-element trade-relay payload for the C9 witness. -/
def c9TradeResponse : WsTradeResponse :=
  ⟨some ⟨[⟨1000, "BTC_USDT"⟩, ⟨2000, "ETH_USDT"⟩]⟩⟩

/-- Witness for C9: on a two-element book payload only the first element
is published; on a two-element trade payload both are. -/
theorem c9_first_element_only_witness :
    diff_relay_step c9BookResponse =
      .ok [⟨convert_from_exchange_trading_pair "BTC_USDT",
            ms_timestamp_to_s 1000, ⟨1000⟩⟩]
    ∧ trade_relay_step c9TradeResponse =
      .ok ([⟨1000, "BTC_USDT"⟩, ⟨2000, "ETH_USDT"⟩].map
        (fun trade => (⟨convert_from_exchange_trading_pair trade.i,
          ms_timestamp_to_s trade.t, trade⟩ : TradeMsg))) :=
  ⟨(c9_first_element_only c9BookResponse ⟨"BTC_USDT", [⟨1000⟩, ⟨2000⟩]⟩
      ⟨1000⟩ [⟨2000⟩] rfl rfl).1,
   (c9_first_element_only c9BookResponse ⟨"BTC_USDT", [⟨1000⟩, ⟨2000⟩]⟩
      ⟨1000⟩ [⟨2000⟩] rfl rfl).2 c9TradeResponse
      ⟨[⟨1000, "BTC_USDT"⟩, ⟨2000, "ETH_USDT"⟩]⟩ rfl⟩

/-- How the ticker request of `fetch_trading_pairs` can turn out: the HTTP
call itself raises (connection failure or timeout), or a response arrives
with a status code and a body whose JSON decoding either yields the list
of instrument names under `result.data` or raises. -/
inductive TickerFetchOutcome
  | networkError
  | response (status : Nat) (parse : Except Unit (List String))
  deriving Repr

/-- Embedding of `fetch_trading_pairs` (lines 66-87): the `try` block only
wraps the JSON decoding inside the 200 branch, so an exception raised by
`client.get` itself propagates; a 200 response with decodable body yields
the converted pair names; a decoding failure inside the 200 branch is
swallowed and, like any non-200 status, falls through to `return []`. -/
def fetch_trading_pairs (outcome : TickerFetchOutcome) :
    Except Unit (List String) :=
  match outcome with
  | .networkError => .error ()
  | .response status parse =>
    if status = 200 then
      match parse with
      | .ok items => .ok (items.map convert_from_exchange_trading_pair)
      | .error _ => .ok []
    else .ok []

/-- C5: the claim that every failure mode yields an empty sequence is
false for the network-error mode: an exception raised by the HTTP call
itself propagates out of `fetch_trading_pairs` instead of producing
`[]`. -/
theorem c5_counterexample :
    fetch_trading_pairs .networkError = .error ()
    ∧ fetch_trading_pairs .networkError ≠ .ok [] := by
  refine ⟨rfl, ?_⟩
  intro h
  simp [fetch_trading_pairs] at h

/-- C5 (amended): a non-success HTTP status or a response-parse error
makes `fetch_trading_pairs` return the empty sequence without propagating;
only a network error raised by the HTTP request itself propagates. -/
theorem c5_best_effort (status : Nat) (parse : Except Unit (List String))
    (h : status ≠ 200 ∨ parse.isOk = false) :
    fetch_trading_pairs (.response status parse) = .ok [] := by
  rcases h with h | h
  · simp [fetch_trading_pairs, h]
  · cases parse with
    | ok items => simp [Except.isOk, Except.toBool] at h
    | error e => by_cases h200 : status = 200 <;> simp [fetch_trading_pairs, h200]

/-- Witness for C5 (amended): a 500 response with a decodable body still
degrades to the empty list. -/
theorem c5_best_effort_witness :
    fetch_trading_pairs (.response 500 (.ok ["BTC_USDT"])) = .ok [] :=
  c5_best_effort 500 (.ok ["BTC_USDT"]) (Or.inl (by decide))

/-- Outcome of one full pass of the periodic-refresh loop body. -/
structure CycleResult where
  published : List SnapshotMsg
  errorsLogged : Nat
  sleptToNextHour : Bool
  deriving DecidableEq, Repr

/-- Embedding of one cycle of `listen_for_order_book_snapshots`
(lines 216-242): for each configured pair in order, fetch a snapshot;
on success publish one snapshot message (trading pair as requested,
timestamp in seconds) and continue; on failure log one error and continue
with the next pair; after the last pair the loop always reaches the sleep
until the next hour boundary. -/
def snapshot_cycle (pairs : List String)
    (fetch : String → Option BookPayload) : CycleResult :=
  let r := pairs.foldl
    (fun acc pair =>
      match fetch pair with
      | some snapshot =>
          (acc.1 ++ [⟨pair, ms_timestamp_to_s snapshot.t, snapshot⟩], acc.2)
      | none => (acc.1, acc.2 + 1))
    ([], 0)
  ⟨r.1, r.2, true⟩

/-- C6: over three configured pairs where the fetch for the second always
fails and the others succeed, one cycle publishes exactly the two
snapshot messages for the first and third pairs, logs exactly one error,
and still proceeds to the sleep until the next hour boundary. -/
theorem c6_cycle_isolates_failures (p1 p2 p3 : String)
    (s1 s3 : BookPayload) (fetch : String → Option BookPayload)
    (h1 : fetch p1 = some s1) (h2 : fetch p2 = none)
    (h3 : fetch p3 = some s3) :
    snapshot_cycle [p1, p2, p3] fetch =
      ⟨[⟨p1, ms_timestamp_to_s s1.t, s1⟩, ⟨p3, ms_timestamp_to_s s3.t, s3⟩],
        1, true⟩ := by
  simp [snapshot_cycle, h1, h2, h3]

/-- Fetch oracle of the C6 witness: pair `"P1"` and `"P3"` succeed,
everything else fails. -/
def c6Fetch (pair : String) : Option BookPayload :=
  if pair = "P1" then some ⟨5000⟩
  else if pair = "P3" then some ⟨7000⟩
  else none

/-- Witness for C6: the cycle evaluated on the concrete three-pair
scenario. -/
theorem c6_cycle_isolates_failures_witness :
    snapshot_cycle ["P1", "P2", "P3"] c6Fetch =
      ⟨[⟨"P1", ms_timestamp_to_s 5000, ⟨5000⟩⟩,
        ⟨"P3", ms_timestamp_to_s 7000, ⟨7000⟩⟩], 1, true⟩ :=
  c6_cycle_isolates_failures "P1" "P2" "P3" ⟨5000⟩ ⟨7000⟩ c6Fetch
    (by decide) (by decide) (by decide)

/-- Modelled from the spec: the order-book endpoint identifier of the
absent `crypto_com_constants` module; its exact value is immaterial to
the claims. -/
def GET_ORDER_BOOK_PATH_URL : String := "public/get-book"

/-- The decoded order-book REST body: the array under `result.data`. -/
structure RestBookBody where
  data : List BookPayload
  deriving DecidableEq, Repr

/-- The externally visible actions of an order-book fetch, in order. -/
inductive ThrottleEvent
  | acquirePermit (path : String)
  | httpGet (path : String)
  deriving DecidableEq, Repr

/-- How the order-book fetch can fail: an `IOError` carrying the HTTP
status, or an `IndexError` from `result.data[0]` on an empty array. -/
inductive BookFetchError
  | httpError (status : Nat)
  | indexError
  deriving DecidableEq, Repr

/-- Embedding of `get_order_book_data` (lines 89-115): inside the
throttler context for the order-book endpoint the GET is issued; a
non-200 status raises an `IOError` carrying that status before the body
is decoded; otherwise the decoded body's `result.data[0]` is returned.
The event list records that the permit is acquired before the request is
issued. -/
def get_order_book_data (status : Nat) (body : RestBookBody) :
    List ThrottleEvent × Except BookFetchError BookPayload :=
  ([.acquirePermit GET_ORDER_BOOK_PATH_URL, .httpGet GET_ORDER_BOOK_PATH_URL],
   if status ≠ 200 then .error (.httpError status)
   else
     match body.data with
     | [] => .error .indexError
     | d :: _ => .ok d)

/-- C8: the order-book fetch acquires the throttler permit before issuing
the request, raises an error carrying the HTTP status exactly when the
status is not 200, and returns the first decoded order-book entry on a
success status with non-empty data. -/
theorem c8_order_book_fetch (status : Nat) (body : RestBookBody) :
    (get_order_book_data status body).1 =
      [.acquirePermit GET_ORDER_BOOK_PATH_URL,
       .httpGet GET_ORDER_BOOK_PATH_URL]
    ∧ (∀ s : Nat,
        (get_order_book_data status body).2 = .error (.httpError s) ↔
          status ≠ 200 ∧ s = status)
    ∧ (∀ (d : BookPayload) (rest : List BookPayload), status = 200 →
        body.data = d :: rest → (get_order_book_data status body).2 = .ok d)
    := by
  refine ⟨rfl, ?_, ?_⟩
  · intro s
    by_cases h200 : status = 200
    · subst h200
      rcases hb : body.data with _ | ⟨d, rest⟩ <;>
        simp [get_order_book_data, hb]
    · simp [get_order_book_data, h200, eq_comm]
  · intro d rest h200 hdata
    simp [get_order_book_data, h200, hdata]

/-- Witness for C8: a 200 response with one entry returns that entry, and
a 404 response raises the error carrying 404. -/
theorem c8_order_book_fetch_witness :
    (get_order_book_data 200 ⟨[⟨42⟩]⟩).2 = .ok ⟨42⟩
    ∧ (get_order_book_data 404 ⟨[]⟩).2 = .error (.httpError 404) :=
  ⟨(c8_order_book_fetch 200 ⟨[⟨42⟩]⟩).2.2 ⟨42⟩ [] rfl rfl,
   ((c8_order_book_fetch 404 ⟨[]⟩).2.1 404).mpr ⟨by decide, rfl⟩⟩

/-- One ticker entry of the decoded ticker response: exchange instrument
name `i` and last-trade price `a`, which the exchange may send as null.
The price type is abstract. -/
structure Ticker (α : Type) where
  i : String
  a : Option α
  deriving DecidableEq, Repr

/-- Embedding of `get_last_traded_prices` (lines 46-64): for each
requested pair, collect the `a` fields of the ticker entries whose `i`
equals the pair's exchange symbol; the pair enters the result only when
that list is non-empty **and** its first element is not null, in which
case the pair maps to that first element. -/
def get_last_traded_prices {α : Type} (trading_pairs : List String)
    (tickers : List (Ticker α)) : List (String × α) :=
  match trading_pairs with
  | [] => []
  | t_pair :: rest =>
    let last_trade :=
      (tickers.filter
        (fun o => o.i == convert_to_exchange_trading_pair t_pair)).map
        (fun o => o.a)
    (match last_trade with
     | some v :: _ => [(t_pair, v)]
     | _ => []) ++ get_last_traded_prices rest tickers

theorem filter_head?_eq_find? {α : Type} (q : α → Bool) (l : List α) :
    (l.filter q).head? = l.find? q := by
  induction l with
  | nil => rfl
  | cons x xs ih =>
      by_cases h : q x <;> simp [List.filter_cons, List.find?_cons, h, ih]

theorem mem_first_price_match {α : Type} (p pair : String) (price : α)
    (lt : List (Option α)) :
    ((pair, price) ∈ (match lt with
      | some v :: _ => [(p, v)]
      | _ => ([] : List (String × α)))) ↔
      pair = p ∧ lt.head? = some (some price) := by
  match lt with
  | [] => simp
  | none :: rest => simp
  | some v :: rest =>
      simp only [List.mem_singleton, Prod.mk.injEq, List.head?,
        Option.some.injEq]
      constructor
      · rintro ⟨rfl, rfl⟩; exact ⟨rfl, rfl⟩
      · rintro ⟨rfl, rfl⟩; exact ⟨rfl, rfl⟩

/-- C10: a requested pair appears in the result exactly when some ticker
entry matches its exchange symbol, the **first** such entry's price field
is non-null, and then the pair maps to that first entry's price — so a
pair is omitted both when nothing matches and when the first match
carries a null price. -/
theorem c10_last_price_first_match {α : Type} (trading_pairs : List String)
    (tickers : List (Ticker α)) (pair : String) (price : α) :
    (pair, price) ∈ get_last_traded_prices trading_pairs tickers ↔
      pair ∈ trading_pairs ∧
        ∃ o : Ticker α,
          tickers.find?
            (fun o => o.i == convert_to_exchange_trading_pair pair) = some o
          ∧ o.a = some price := by
  induction trading_pairs with
  | nil => simp [get_last_traded_prices]
  | cons p ps ih =>
      simp only [get_last_traded_prices, List.mem_append, ih,
        List.mem_cons]
      rw [mem_first_price_match, List.head?_map, filter_head?_eq_find?]
      constructor
      · rintro (⟨rfl, h⟩ | ⟨hmem, h⟩)
        · rcases Option.map_eq_some'.mp h with ⟨o, ho, ha⟩
          exact ⟨Or.inl rfl, o, ho, ha⟩
        · exact ⟨Or.inr hmem, h⟩
      · rintro ⟨hp | hmem, h⟩
        · subst hp
          rcases h with ⟨o, ho, ha⟩
          exact Or.inl ⟨rfl, Option.map_eq_some'.mpr ⟨o, ho, ha⟩⟩
        · exact Or.inr ⟨hmem, h⟩

end Hummingbot
